import Mathlib

/-
Verification of the adapter layer of `server.py` (assisted-service-mcp).

The repository is a thin MCP adapter: nine tool operations, each of which
logs, forwards its arguments to a bound method of an externally supplied
`AssistedClient` object via `asyncio.to_thread`, and converts the result or
any raised fault into a string through the shared helper `handle_api_call`.

Shallow embedding notes:
  * A Python value returned by a client method is opaque to the adapter; the
    only thing the adapter does with it is `str(...)` and f-string
    interpolation.  We model it as `PyVal`, a wrapper around its `str` form.
  * A single client call is modelled by its outcome `ClientOutcome`:
    it returns a value, raises `asyncio.TimeoutError`, or raises some other
    exception carrying a message (`str(e)`).
  * An invocation of a tool operation is modelled as a `Trace`: the log lines
    emitted before the client call, the log lines emitted after it, and the
    outcome delivered to the invocation caller (`PyOutcome`): either a string
    result or an unhandled Python exception propagating out of the coroutine.
  * Log lines are modelled as the interpolated payload strings; the exact
    f-string punctuation (quotes, parentheses of the args tuple) is abstracted
    into plain concatenation, which is irrelevant to every claim below (only
    the number of lines and the result strings are at stake).
  * `handle_api_call(func, *args, **kwargs)` receives the bound client method
    `func`; the adapter uses `func` only to call it once and to read
    `func.__name__`.  We therefore model it by the method name `funcName`, a
    rendering `argsRepr` of the arguments for the pre-call log line, and the
    outcome `call` of the one call made.
-/

namespace AssistedServiceMCP

/-- An opaque Python value as seen by the adapter: the adapter only ever
takes its `str(...)` form, which we store directly. -/
structure PyVal where
  toStr : String
deriving DecidableEq, Repr

/-- Python `str(v)` on an opaque client-returned value. -/
def pyStr (v : PyVal) : String := v.toStr

/-- Outcome of the single client-method call made by `handle_api_call`:
the method returns a value, raises `asyncio.TimeoutError`, or raises any
other exception with message `msg` (Python `str(e)`). -/
inductive ClientOutcome where
  | ok (v : PyVal)
  | timeout
  | raise (msg : String)
deriving DecidableEq, Repr

/-- What the invocation caller observes from one tool invocation: a string
result, or an unhandled Python exception (with its message) propagating out
of the tool coroutine. -/
inductive PyOutcome where
  | ok (s : String)
  | raised (msg : String)
deriving DecidableEq, Repr

/-- One tool invocation, observably: log lines emitted strictly before the
client call, log lines emitted after it, and the outcome for the caller. -/
structure Trace where
  logsBefore : List String
  logsAfter : List String
  outcome : PyOutcome
deriving DecidableEq, Repr

/-- `handle_api_call` (src/server.py lines 59-73): logs the pre-call line,
awaits `asyncio.to_thread(func, *args, **kwargs)`, and returns `str(result)`;
`asyncio.TimeoutError` becomes the fixed string `"Operation timed out"`;
any other exception becomes
`"Unexpected error in " ++ func.__name__ ++ ": " ++ str(e)`.
Each branch logs exactly one line after the call and never re-raises. -/
def handle_api_call (funcName : String) (argsRepr : String)
    (call : ClientOutcome) : Trace :=
  let preLog := "Calling " ++ funcName ++ " with args, kwargs: " ++ argsRepr
  match call with
  | .ok v =>
      { logsBefore := [preLog]
        logsAfter := ["result is: " ++ pyStr v]
        outcome := .ok (pyStr v) }
  | .timeout =>
      { logsBefore := [preLog]
        logsAfter := ["Operation timed out"]
        outcome := .ok "Operation timed out" }
  | .raise msg =>
      let errorMsg := "Unexpected error in " ++ funcName ++ ": " ++ msg
      { logsBefore := [preLog]
        logsAfter := [errorMsg]
        outcome := .ok errorMsg }

/-- Tool `list_clusters` (src/server.py lines 75-79): logs, then delegates
`ai.list_clusters` to `handle_api_call`. -/
def list_clusters (stub : ClientOutcome) : Trace :=
  let h := handle_api_call "list_clusters" "" stub
  { h with logsBefore := "Listing clusters" :: h.logsBefore }

/-- Tool `list_events` (src/server.py lines 81-89): logs, then delegates
`ai.list_events cluster_name` to `handle_api_call`. -/
def list_events (cluster_name : String) (stub : ClientOutcome) : Trace :=
  let h := handle_api_call "list_events" cluster_name stub
  { h with
      logsBefore :=
        ("Listing events for cluster: " ++ cluster_name) :: h.logsBefore }

/-- Tool `list_manifests` (src/server.py lines 91-99). -/
def list_manifests (cluster_name : String) (stub : ClientOutcome) : Trace :=
  let h := handle_api_call "list_manifests" cluster_name stub
  { h with
      logsBefore :=
        ("Listing manifests for cluster: " ++ cluster_name) :: h.logsBefore }

/-- Tool `delete_cluster` (src/server.py lines 117-125). -/
def delete_cluster (cluster_name : String) (stub : ClientOutcome) : Trace :=
  let h := handle_api_call "delete_cluster" cluster_name stub
  { h with
      logsBefore := ("Deleting cluster: " ++ cluster_name) :: h.logsBefore }

/-- Tool `cluster_info` (src/server.py lines 127-135): note the bound client
method is `ai.get_cluster`, so `func.__name__` is `"get_cluster"`, not the
registered operation name `"cluster_info"`. -/
def cluster_info (cluster_name : String) (stub : ClientOutcome) : Trace :=
  let h := handle_api_call "get_cluster" cluster_name stub
  { h with
      logsBefore :=
        ("Getting info for cluster: " ++ cluster_name) :: h.logsBefore }

/-- Tool `update_cluster` (src/server.py lines 137-145). -/
def update_cluster (cluster_name : String) (stub : ClientOutcome) : Trace :=
  let h := handle_api_call "update_cluster" cluster_name stub
  { h with
      logsBefore := ("Updating cluster: " ++ cluster_name) :: h.logsBefore }

/-- Tool `delete_manifests` (src/server.py lines 159-167). -/
def delete_manifests (cluster_name : String) (stub : ClientOutcome) : Trace :=
  let h := handle_api_call "delete_manifests" cluster_name stub
  { h with
      logsBefore :=
        ("Deleting manifests for cluster: " ++ cluster_name) :: h.logsBefore }

/-- Result of Python `dict(pos, **kwargs)` argument construction as used at
src/server.py line 115: the positional argument `cluster_name` is `None` or a
`str`.  `dict(None, ...)` raises `TypeError` (NoneType is not iterable);
`dict(s, ...)` for a string `s` iterates the characters of `s` and requires
each to be a key-value pair of length 2, so it succeeds only for the empty
string (yielding the empty dict, then updated with the keyword arguments) and
raises `ValueError` for every nonempty string, whose elements are characters
of length 1.  Exception messages are abbreviated (no quote characters). -/
def pyDictPositional : Option String → Except String Unit
  | none => .error "TypeError: NoneType object is not iterable"
  | some s =>
      if s.isEmpty then .ok ()
      else .error
        "ValueError: dictionary update sequence element 0 has length 1; 2 is required"

/-- The keyword arguments merged into the `overrides` dict at
src/server.py line 115 and forwarded to `ai.create_cluster`. -/
structure Overrides where
  base_dns_domain : Option String
  openshift_version : Option String
  high_availability_mode : String
deriving DecidableEq, Repr

/-- What `create_cluster` forwards to the bound client method: either the
`overrides` dict of the single keyword argument of `ai.create_cluster`, or a
marshalling exception raised while constructing it (before `handle_api_call`
is ever entered). -/
inductive MarshalResult where
  | ok (o : Overrides)
  | raised (msg : String)
deriving DecidableEq, Repr

/-- Argument construction of src/server.py line 115:
`overrides=dict(cluster_name, base_dns_domain=base_dns_domain,
openshift_version=openshift_version, high_availability_mode=high_availability_mode)`.
The parameters `cluster_network_cidr`, `pull_secret` and `ssh_public_key`
are accepted by the tool signature but appear nowhere in this expression. -/
def create_cluster_forwarded (cluster_name : Option String)
    (high_availability_mode : String) (openshift_version : Option String)
    (base_dns_domain : Option String) (cluster_network_cidr : String)
    (pull_secret : Option String) (ssh_public_key : Option String) :
    MarshalResult :=
  match pyDictPositional cluster_name with
  | .error m => .raised m
  | .ok _ =>
      .ok
        { base_dns_domain := base_dns_domain
          openshift_version := openshift_version
          high_availability_mode := high_availability_mode }

/-- Python `str` rendering of an optional string for the f-string log line
(`None` for the absent case). -/
def optStr : Option String → String
  | none => "None"
  | some s => s

/-- Tool `create_cluster` (src/server.py lines 101-115): logs its own line,
then evaluates `dict(cluster_name, ...)` while building the arguments of
`handle_api_call`.  That evaluation happens in the body of `create_cluster`,
outside the `try` of `handle_api_call`, so a marshalling exception propagates
to the invocation caller unhandled and no post-call log line is emitted. -/
def create_cluster (stub : ClientOutcome) (cluster_name : Option String)
    (high_availability_mode : String) (openshift_version : Option String)
    (base_dns_domain : Option String) (cluster_network_cidr : String)
    (pull_secret : Option String) (ssh_public_key : Option String) : Trace :=
  let toolLog := "Creating cluster: " ++ optStr cluster_name
      ++ ", base_dns_domain: " ++ optStr base_dns_domain
      ++ ", version: " ++ optStr openshift_version
      ++ ", high_availability_mode: " ++ high_availability_mode
  match create_cluster_forwarded cluster_name high_availability_mode
      openshift_version base_dns_domain cluster_network_cidr
      pull_secret ssh_public_key with
  | .raised m =>
      { logsBefore := [toolLog], logsAfter := [], outcome := .raised m }
  | .ok _ =>
      let h := handle_api_call "create_cluster" "overrides" stub
      { h with logsBefore := toolLog :: h.logsBefore }

/-- The arguments forwarded to `ai.upload_manifests` by `create_manifests`
(src/server.py line 157). -/
structure UploadManifestsArgs where
  cluster_name : String
  directory : String
  openshift : Bool
deriving DecidableEq, Repr

/-- Argument construction of src/server.py line 157:
`ai.upload_manifests(cluster_name, directory, openshift=False)` — the keyword
argument is the literal `False`, not the caller-supplied `openshift`. -/
def create_manifests_forwarded (cluster_name : String) (directory : String)
    (openshift : Bool) : UploadManifestsArgs :=
  { cluster_name := cluster_name
    directory := directory
    openshift := false }

/-- Tool `create_manifests` (src/server.py lines 147-157): note the bound
client method is `ai.upload_manifests`, so `func.__name__` is
`"upload_manifests"`, not the registered operation name `"create_manifests"`. -/
def create_manifests (cluster_name : String) (directory : String)
    (openshift : Bool) (stub : ClientOutcome) : Trace :=
  let h := handle_api_call "upload_manifests" (cluster_name ++ " " ++ directory)
      stub
  { h with
      logsBefore :=
        ("Creating manifests for cluster: " ++ cluster_name) :: h.logsBefore }

/-- The names under which the nine `@mcp.tool`-decorated coroutines of
src/server.py lines 75-167 are registered (FastMCP registers each tool under
the decorated function name). -/
def registeredOperations : List String :=
  ["list_clusters", "list_events", "list_manifests", "create_cluster",
   "delete_cluster", "cluster_info", "update_cluster", "create_manifests",
   "delete_manifests"]

/-- Startup token check of src/server.py lines 48-50:
`offlinetoken = os.getenv("OFFLINE_TOKEN"); if not offlinetoken: raise
ValueError(...)`.  The environment lookup yields `none` when the variable is
unset.  Python truthiness: `not None` and `not ""` are both true, so the
check raises for an unset variable and for one set to the empty string; any
nonempty value passes and module execution proceeds to the `AssistedClient`
construction at line 53.  This runs at import time, before `mcp.run` at
line 172 ever serves a request. -/
def startup_token_check (env : Option String) : PyOutcome :=
  match env with
  | none => .raised "OFFLINE_TOKEN environment variable is not set"
  | some t =>
      if t.isEmpty then .raised "OFFLINE_TOKEN environment variable is not set"
      else .ok t

/-- The seven formal parameters of `create_cluster` after Python default
binding (src/server.py line 102). -/
structure CreateClusterBound where
  cluster_name : Option String
  high_availability_mode : String
  openshift_version : Option String
  base_dns_domain : Option String
  cluster_network_cidr : String
  pull_secret : Option String
  ssh_public_key : Option String
deriving DecidableEq, Repr

/-- The default values of the `def create_cluster(...)` line
(src/server.py line 102): `cluster_name=None`, `high_availability_mode='Full'`,
`openshift_version=None`, `base_dns_domain=None`,
`cluster_network_cidr='10.128.0.0/14'`, `pull_secret=None`,
`ssh_public_key=None`. -/
def create_cluster_param_defaults : CreateClusterBound :=
  { cluster_name := none
    high_availability_mode := "Full"
    openshift_version := none
    base_dns_domain := none
    cluster_network_cidr := "10.128.0.0/14"
    pull_secret := none
    ssh_public_key := none }

/-- A call site of `create_cluster` with every parameter optionally omitted
(`none` in the outer `Option` means the argument was not supplied). -/
structure CreateClusterCall where
  cluster_name : Option (Option String)
  high_availability_mode : Option String
  openshift_version : Option (Option String)
  base_dns_domain : Option (Option String)
  cluster_network_cidr : Option String
  pull_secret : Option (Option String)
  ssh_public_key : Option (Option String)

/-- Python default binding for a `create_cluster` call: every omitted
argument receives the default from the `def` line. -/
def bind_create_cluster_args (c : CreateClusterCall) : CreateClusterBound :=
  { cluster_name :=
      c.cluster_name.getD create_cluster_param_defaults.cluster_name
    high_availability_mode :=
      c.high_availability_mode.getD
        create_cluster_param_defaults.high_availability_mode
    openshift_version :=
      c.openshift_version.getD create_cluster_param_defaults.openshift_version
    base_dns_domain :=
      c.base_dns_domain.getD create_cluster_param_defaults.base_dns_domain
    cluster_network_cidr :=
      c.cluster_network_cidr.getD
        create_cluster_param_defaults.cluster_network_cidr
    pull_secret :=
      c.pull_secret.getD create_cluster_param_defaults.pull_secret
    ssh_public_key :=
      c.ssh_public_key.getD create_cluster_param_defaults.ssh_public_key }

/-- Invoking the `create_cluster` tool from a call site: bind defaults, then
run the body. -/
def invoke_create_cluster (stub : ClientOutcome) (c : CreateClusterCall) :
    Trace :=
  let b := bind_create_cluster_args c
  create_cluster stub b.cluster_name b.high_availability_mode
    b.openshift_version b.base_dns_domain b.cluster_network_cidr
    b.pull_secret b.ssh_public_key

/-- The default of the `openshift` parameter of `create_manifests`
(src/server.py line 148): `openshift=False`. -/
def create_manifests_param_default_openshift : Bool := false

/-- Invoking the `create_manifests` tool from a call site where the
`openshift` argument may be omitted (`none`). -/
def invoke_create_manifests (cluster_name : String) (directory : String)
    (openshift : Option Bool) (stub : ClientOutcome) : Trace :=
  create_manifests cluster_name directory
    (openshift.getD create_manifests_param_default_openshift) stub

/-- `listHasPre s pat` tests whether `pat` is an initial segment of `s`
(character lists). -/
def listHasPre : List Char → List Char → Bool
  | _, [] => true
  | [], _ :: _ => false
  | c :: s, d :: pat => c == d && listHasPre s pat

/-- `listHasSub s pat` tests whether `pat` occurs contiguously in `s`. -/
def listHasSub : List Char → List Char → Bool
  | [], pat => pat.isEmpty
  | c :: t, pat => listHasPre (c :: t) pat || listHasSub t pat

/-- Substring test on strings: does `pat` occur contiguously in `s`? -/
def strContains (s pat : String) : Bool := listHasSub s.toList pat.toList

/-- `t.outcome` is a descriptive error string: a string result that contains
both the bound client method's name and the fault's message. -/
def raisesToDescriptiveString (t : Trace) (methodName msg : String) : Prop :=
  ∃ r, t.outcome = .ok r ∧ strContains r methodName = true
    ∧ strContains r msg = true

lemma listHasPre_append (pat rest : List Char) :
    listHasPre (pat ++ rest) pat = true := by
  induction pat with
  | nil => simp [listHasPre]
  | cons c cs ih => simp [listHasPre, ih]

lemma listHasPre_self (pat : List Char) : listHasPre pat pat = true := by
  have h := listHasPre_append pat []
  simpa using h

lemma listHasSub_here (s pat : List Char) (h : listHasPre s pat = true) :
    listHasSub s pat = true := by
  cases s with
  | nil =>
      cases pat with
      | nil => rfl
      | cons d ds => simp [listHasPre] at h
  | cons c t => simp [listHasSub, h]

lemma listHasSub_cons (c : Char) (t pat : List Char)
    (h : listHasSub t pat = true) : listHasSub (c :: t) pat = true := by
  simp [listHasSub, h]

lemma listHasSub_append (a s pat : List Char)
    (h : listHasSub s pat = true) : listHasSub (a ++ s) pat = true := by
  induction a with
  | nil => simpa using h
  | cons c cs ih => exact listHasSub_cons c (cs ++ s) pat ih

lemma toList_append (a b : String) :
    (a ++ b).toList = a.toList ++ b.toList := rfl

lemma strContains_errorMsg_name (funcName msg : String) :
    strContains ("Unexpected error in " ++ funcName ++ ": " ++ msg) funcName
      = true := by
  unfold strContains
  rw [toList_append, toList_append, toList_append,
    List.append_assoc, List.append_assoc]
  exact listHasSub_append _ _ _
    (listHasSub_here _ _ (listHasPre_append _ _))

lemma strContains_errorMsg_msg (funcName msg : String) :
    strContains ("Unexpected error in " ++ funcName ++ ": " ++ msg) msg
      = true := by
  unfold strContains
  rw [toList_append]
  exact listHasSub_append _ _ _
    (listHasSub_here _ _ (listHasPre_self _))

/-- Claim C1 (code bug): the claim states that every invocation of every
registered operation yields exactly one string result and never raises an
unhandled fault, faults during argument marshalling included.  The code
violates this in `create_cluster`: `dict(cluster_name, ...)` at
src/server.py line 115 is evaluated in the tool body, outside the `try` of
`handle_api_call`, and raises `ValueError` for every nonempty string
`cluster_name`, so the fault propagates to the invocation caller.  This
theorem evaluates the embedded `create_cluster` at the failing input
`cluster_name = "mycluster"` (with an arbitrary succeeding stub) and shows
the outcome is an unhandled exception, not a string result. -/
theorem claim_C1_marshalling_fault_escapes :
    (create_cluster (.ok ⟨"done"⟩) (some "mycluster") "Full" none none
        "10.128.0.0/14" none none).outcome
      = .raised
        "ValueError: dictionary update sequence element 0 has length 1; 2 is required"
    ∧ ∀ r, (create_cluster (.ok ⟨"done"⟩) (some "mycluster") "Full" none none
        "10.128.0.0/14" none none).outcome ≠ .ok r := by
  constructor
  · rfl
  · intro r h
    exact PyOutcome.noConfusion h

/-- Claim C2 (confirmed): for every registered operation, when the bound
client method returns a value without raising, the operation's result is
exactly `str` of that value (for `create_cluster`, the client call is reached
exactly when the positional-dict marshalling succeeds, i.e. at
`cluster_name = some ""`). -/
theorem claim_C2_success_result_is_str (v : PyVal) (cn dir ha cidr : String)
    (ov bd ps ssh : Option String) (b : Bool) :
    (list_clusters (.ok v)).outcome = .ok (pyStr v) ∧
    (list_events cn (.ok v)).outcome = .ok (pyStr v) ∧
    (list_manifests cn (.ok v)).outcome = .ok (pyStr v) ∧
    (create_cluster (.ok v) (some "") ha ov bd cidr ps ssh).outcome
      = .ok (pyStr v) ∧
    (delete_cluster cn (.ok v)).outcome = .ok (pyStr v) ∧
    (cluster_info cn (.ok v)).outcome = .ok (pyStr v) ∧
    (update_cluster cn (.ok v)).outcome = .ok (pyStr v) ∧
    (create_manifests cn dir b (.ok v)).outcome = .ok (pyStr v) ∧
    (delete_manifests cn (.ok v)).outcome = .ok (pyStr v) :=
  ⟨rfl, rfl, rfl, rfl, rfl, rfl, rfl, rfl, rfl⟩

/-- Claim C3 (counterexample): the claim states that the error string
contains the operation's name.  The code interpolates `func.__name__`, the
bound client method's name; for the operation registered as `cluster_info`
the bound method is `ai.get_cluster`, so a fault with message `"boom"`
produces `"Unexpected error in get_cluster: boom"`, which does not contain
the operation name `"cluster_info"`. -/
theorem claim_C3_counterexample :
    (cluster_info "mycluster" (.raise "boom")).outcome
      = .ok "Unexpected error in get_cluster: boom" ∧
    strContains "Unexpected error in get_cluster: boom" "cluster_info"
      = false := by
  constructor
  · rfl
  · decide

/-- Claim C3 amended (proved): for every registered operation, a
non-timeout fault raised by the bound client method yields a string result
containing the bound client method's name (`func.__name__`) and the fault's
message, and the fault does not reach the caller; a timeout fault yields the
fixed string result `"Operation timed out"` (which contains neither).
`create_cluster` is taken at `cluster_name = some ""`, the inputs on which
its client call is reached. -/
theorem claim_C3_amended_descriptive_errors (msg cn dir ha cidr : String)
    (ov bd ps ssh : Option String) (b : Bool) :
    (raisesToDescriptiveString (list_clusters (.raise msg))
        "list_clusters" msg ∧
      raisesToDescriptiveString (list_events cn (.raise msg))
        "list_events" msg ∧
      raisesToDescriptiveString (list_manifests cn (.raise msg))
        "list_manifests" msg ∧
      raisesToDescriptiveString
        (create_cluster (.raise msg) (some "") ha ov bd cidr ps ssh)
        "create_cluster" msg ∧
      raisesToDescriptiveString (delete_cluster cn (.raise msg))
        "delete_cluster" msg ∧
      raisesToDescriptiveString (cluster_info cn (.raise msg))
        "get_cluster" msg ∧
      raisesToDescriptiveString (update_cluster cn (.raise msg))
        "update_cluster" msg ∧
      raisesToDescriptiveString (create_manifests cn dir b (.raise msg))
        "upload_manifests" msg ∧
      raisesToDescriptiveString (delete_manifests cn (.raise msg))
        "delete_manifests" msg) ∧
    ((list_clusters .timeout).outcome = .ok "Operation timed out" ∧
      (list_events cn .timeout).outcome = .ok "Operation timed out" ∧
      (list_manifests cn .timeout).outcome = .ok "Operation timed out" ∧
      (create_cluster .timeout (some "") ha ov bd cidr ps ssh).outcome
        = .ok "Operation timed out" ∧
      (delete_cluster cn .timeout).outcome = .ok "Operation timed out" ∧
      (cluster_info cn .timeout).outcome = .ok "Operation timed out" ∧
      (update_cluster cn .timeout).outcome = .ok "Operation timed out" ∧
      (create_manifests cn dir b .timeout).outcome
        = .ok "Operation timed out" ∧
      (delete_manifests cn .timeout).outcome
        = .ok "Operation timed out") := by
  refine ⟨⟨?_, ?_, ?_, ?_, ?_, ?_, ?_, ?_, ?_⟩,
    rfl, rfl, rfl, rfl, rfl, rfl, rfl, rfl, rfl⟩ <;>
    exact ⟨_, rfl, strContains_errorMsg_name _ msg,
      strContains_errorMsg_msg _ msg⟩

/-- Claim C4 (code bug): the claim states that `create_manifests` forwards
the caller-supplied `openshift` value to `ai.upload_manifests`.  The code at
src/server.py line 157 passes the literal `openshift=False`, ignoring the
parameter: with `openshift=True` supplied, the forwarded value is still
`false`. -/
theorem claim_C4_openshift_flag_ignored :
    create_manifests_forwarded "mycluster" "manifests" true
      = { cluster_name := "mycluster", directory := "manifests",
          openshift := false } ∧
    (create_manifests_forwarded "mycluster" "manifests" true).openshift
      ≠ true := by
  constructor
  · rfl
  · decide

/-- Claim C5 (counterexample): the claim states that whenever the
offline-token environment variable is set, startup proceeds to client
construction.  With the variable set to the empty string, `not offlinetoken`
is true in Python, so the check at src/server.py lines 49-50 still raises
`ValueError`. -/
theorem claim_C5_counterexample :
    startup_token_check (some "")
      = .raised "OFFLINE_TOKEN environment variable is not set" ∧
    startup_token_check (some "") ≠ .ok "" := by
  constructor
  · rfl
  · decide

/-- Claim C5 amended (proved): startup raises before serving when the
offline-token variable is unset or set to the empty string, and proceeds to
client construction (returning the token) when it is set to any nonempty
value. -/
theorem claim_C5_amended_token_check (t : String) (h : t.isEmpty = false) :
    startup_token_check none
      = .raised "OFFLINE_TOKEN environment variable is not set" ∧
    startup_token_check (some "")
      = .raised "OFFLINE_TOKEN environment variable is not set" ∧
    startup_token_check (some t) = .ok t := by
  refine ⟨rfl, rfl, ?_⟩
  simp [startup_token_check, h]

/-- Witness for the amended claim C5 at the concrete token `"token"`. -/
theorem claim_C5_amended_token_check_witness :
    startup_token_check none
      = .raised "OFFLINE_TOKEN environment variable is not set" ∧
    startup_token_check (some "")
      = .raised "OFFLINE_TOKEN environment variable is not set" ∧
    startup_token_check (some "token") = .ok "token" :=
  claim_C5_amended_token_check "token" (by decide)

/-- Claim C7 (confirmed): the parameter defaults match the spec
(`high_availability_mode='Full'`, `cluster_network_cidr='10.128.0.0/14'`,
the four optional parameters defaulting to `None`, and `openshift=False`
for `create_manifests`), and an invocation omitting these parameters behaves
exactly as one supplying the default values. -/
theorem claim_C7_parameter_defaults (stub : ClientOutcome) (cn dir : String) :
    create_cluster_param_defaults.high_availability_mode = "Full" ∧
    create_cluster_param_defaults.cluster_network_cidr = "10.128.0.0/14" ∧
    create_cluster_param_defaults.openshift_version = none ∧
    create_cluster_param_defaults.base_dns_domain = none ∧
    create_cluster_param_defaults.pull_secret = none ∧
    create_cluster_param_defaults.ssh_public_key = none ∧
    create_manifests_param_default_openshift = false ∧
    invoke_create_cluster stub
        { cluster_name := some (some cn), high_availability_mode := none,
          openshift_version := none, base_dns_domain := none,
          cluster_network_cidr := none, pull_secret := none,
          ssh_public_key := none }
      = create_cluster stub (some cn) "Full" none none "10.128.0.0/14"
          none none ∧
    invoke_create_manifests cn dir none stub
      = create_manifests cn dir false stub :=
  ⟨rfl, rfl, rfl, rfl, rfl, rfl, rfl, rfl, rfl⟩

/-- Claim C8 (confirmed): exactly nine operations are registered, one per
exposed capability, and every registered operation name is unique. -/
theorem claim_C8_nine_unique_operations :
    registeredOperations.length = 9 ∧ registeredOperations.Nodup := by
  constructor
  · rfl
  · decide

/-- Claim C9 (counterexample): the claim states that exactly one log line is
emitted before the client call.  Every tool body logs its own line and
`handle_api_call` logs a second one before delegating to the client, so a
concrete `list_events` invocation emits two log lines before the call. -/
theorem claim_C9_counterexample :
    (list_events "mycluster" (.ok ⟨"events"⟩)).logsBefore.length = 2 ∧
    (list_events "mycluster" (.ok ⟨"events"⟩)).logsBefore.length ≠ 1 := by
  constructor
  · rfl
  · decide

/-- Claim C9 amended (proved): for every invocation of every registered
operation on which the client call is reached, the adapter's observable side
effects besides the client call are exactly two log lines before the call
(the tool body's own line and the handler's pre-call line) and exactly one
log line after it (`create_cluster` is taken at `cluster_name = some ""`,
the inputs on which its client call is reached; when its marshalling raises
instead, only the tool body's single log line is emitted and no client call
occurs). -/
theorem claim_C9_amended_log_lines (stub : ClientOutcome)
    (cn dir ha cidr : String) (ov bd ps ssh : Option String) (b : Bool)
    (cn2 : Option String) (em : String)
    (h : pyDictPositional cn2 = .error em) :
    ((list_clusters stub).logsBefore.length = 2 ∧
      (list_clusters stub).logsAfter.length = 1) ∧
    ((list_events cn stub).logsBefore.length = 2 ∧
      (list_events cn stub).logsAfter.length = 1) ∧
    ((list_manifests cn stub).logsBefore.length = 2 ∧
      (list_manifests cn stub).logsAfter.length = 1) ∧
    ((create_cluster stub (some "") ha ov bd cidr ps ssh).logsBefore.length
        = 2 ∧
      (create_cluster stub (some "") ha ov bd cidr ps ssh).logsAfter.length
        = 1) ∧
    ((delete_cluster cn stub).logsBefore.length = 2 ∧
      (delete_cluster cn stub).logsAfter.length = 1) ∧
    ((cluster_info cn stub).logsBefore.length = 2 ∧
      (cluster_info cn stub).logsAfter.length = 1) ∧
    ((update_cluster cn stub).logsBefore.length = 2 ∧
      (update_cluster cn stub).logsAfter.length = 1) ∧
    ((create_manifests cn dir b stub).logsBefore.length = 2 ∧
      (create_manifests cn dir b stub).logsAfter.length = 1) ∧
    ((delete_manifests cn stub).logsBefore.length = 2 ∧
      (delete_manifests cn stub).logsAfter.length = 1) ∧
    ((create_cluster stub cn2 ha ov bd cidr ps ssh).logsBefore.length = 1 ∧
      (create_cluster stub cn2 ha ov bd cidr ps ssh).logsAfter = []) := by
  have hlast :
      (create_cluster stub cn2 ha ov bd cidr ps ssh).logsBefore.length = 1 ∧
      (create_cluster stub cn2 ha ov bd cidr ps ssh).logsAfter = [] := by
    constructor <;> simp [create_cluster, create_cluster_forwarded, h]
  cases stub <;>
    exact ⟨⟨rfl, rfl⟩, ⟨rfl, rfl⟩, ⟨rfl, rfl⟩, ⟨rfl, rfl⟩, ⟨rfl, rfl⟩,
      ⟨rfl, rfl⟩, ⟨rfl, rfl⟩, ⟨rfl, rfl⟩, ⟨rfl, rfl⟩, hlast⟩

/-- Witness for the amended claim C9 at concrete inputs: a succeeding stub,
cluster name `"c"`, directory `"d"`, and for the marshalling-failure clause
the nonempty cluster name `"x"`, on which `dict("x", ...)` raises
`ValueError`. -/
theorem claim_C9_amended_log_lines_witness :
    ((list_clusters (.ok ⟨"r"⟩)).logsBefore.length = 2 ∧
      (list_clusters (.ok ⟨"r"⟩)).logsAfter.length = 1) ∧
    ((list_events "c" (.ok ⟨"r"⟩)).logsBefore.length = 2 ∧
      (list_events "c" (.ok ⟨"r"⟩)).logsAfter.length = 1) ∧
    ((list_manifests "c" (.ok ⟨"r"⟩)).logsBefore.length = 2 ∧
      (list_manifests "c" (.ok ⟨"r"⟩)).logsAfter.length = 1) ∧
    ((create_cluster (.ok ⟨"r"⟩) (some "") "Full" none none "10.128.0.0/14"
          none none).logsBefore.length = 2 ∧
      (create_cluster (.ok ⟨"r"⟩) (some "") "Full" none none "10.128.0.0/14"
          none none).logsAfter.length = 1) ∧
    ((delete_cluster "c" (.ok ⟨"r"⟩)).logsBefore.length = 2 ∧
      (delete_cluster "c" (.ok ⟨"r"⟩)).logsAfter.length = 1) ∧
    ((cluster_info "c" (.ok ⟨"r"⟩)).logsBefore.length = 2 ∧
      (cluster_info "c" (.ok ⟨"r"⟩)).logsAfter.length = 1) ∧
    ((update_cluster "c" (.ok ⟨"r"⟩)).logsBefore.length = 2 ∧
      (update_cluster "c" (.ok ⟨"r"⟩)).logsAfter.length = 1) ∧
    ((create_manifests "c" "d" false (.ok ⟨"r"⟩)).logsBefore.length = 2 ∧
      (create_manifests "c" "d" false (.ok ⟨"r"⟩)).logsAfter.length = 1) ∧
    ((delete_manifests "c" (.ok ⟨"r"⟩)).logsBefore.length = 2 ∧
      (delete_manifests "c" (.ok ⟨"r"⟩)).logsAfter.length = 1) ∧
    ((create_cluster (.ok ⟨"r"⟩) (some "x") "Full" none none "10.128.0.0/14"
          none none).logsBefore.length = 1 ∧
      (create_cluster (.ok ⟨"r"⟩) (some "x") "Full" none none "10.128.0.0/14"
          none none).logsAfter = []) :=
  claim_C9_amended_log_lines (.ok ⟨"r"⟩) "c" "d" "Full" "10.128.0.0/14"
    none none none none false (some "x")
    "ValueError: dictionary update sequence element 0 has length 1; 2 is required"
    (by rfl)

/-- Claim C10 (confirmed): two `create_cluster` invocations whose arguments
differ only in `cluster_network_cidr`, `pull_secret` or `ssh_public_key`
forward identical arguments to the client's `create_cluster` method (and
indeed produce identical traces given the same client outcome): these three
accepted parameters appear nowhere in the forwarded-argument construction of
src/server.py line 115. -/
theorem claim_C10_unused_parameters (stub : ClientOutcome)
    (cn : Option String) (ha : String) (ov bd : Option String)
    (cidr1 cidr2 : String) (ps1 ps2 ssh1 ssh2 : Option String) :
    create_cluster_forwarded cn ha ov bd cidr1 ps1 ssh1
      = create_cluster_forwarded cn ha ov bd cidr2 ps2 ssh2 ∧
    create_cluster stub cn ha ov bd cidr1 ps1 ssh1
      = create_cluster stub cn ha ov bd cidr2 ps2 ssh2 :=
  ⟨rfl, rfl⟩

end AssistedServiceMCP
